import Mathlib

/-!
Shallow embedding of `src/src/App.tsx` (the `HadithApp` React component).

The component's state hooks become the fields of `AppState`; each event
handler (`handleBookSelect`, `handleChapterSelect`, `handlePageChange`)
becomes a pure state transformer; each async loader (`fetchBooks`,
`fetchChapters`, `fetchHadiths`) is split into a synchronous "start" phase
(the `setState` calls made before `await fetch`) and a "settle" phase
(a function of the response outcome, covering the success branches, the
`catch` block, and the `finally` block). React batches the `setState` calls
of one synchronous phase, so a phase is one record update.
-/

/-- `interface Book` from App.tsx. Numeric-looking counts arrive as strings. -/
structure Book where
  id : Int
  bookName : String
  writerName : String
  writerDeath : Option String
  bookSlug : String
  hadiths_count : String
  chapters_count : String

deriving instance DecidableEq for Book

/-- `interface Chapter` from App.tsx. -/
structure Chapter where
  id : Int
  chapterNumber : String
  chapterEnglish : String
  chapterUrdu : String
  chapterArabic : String
  bookSlug : String

deriving instance DecidableEq for Chapter

/-- The embedded `book` summary inside `interface Hadith`. -/
structure HadithBookRef where
  id : Int
  bookName : String
  writerName : String
  writerDeath : Option String
  bookSlug : String

deriving instance DecidableEq for HadithBookRef

/-- The embedded `chapter` summary inside `interface Hadith`. -/
structure HadithChapterRef where
  id : Int
  chapterNumber : String
  chapterEnglish : String
  chapterUrdu : String
  chapterArabic : String
  bookSlug : String

deriving instance DecidableEq for HadithChapterRef

/-- `interface Hadith` from App.tsx; `?`-marked fields become `Option`. -/
structure Hadith where
  id : Int
  hadithNumber : String
  englishNarrator : String
  hadithEnglish : String
  hadithUrdu : String
  hadithArabic : Option String
  headingArabic : Option String
  headingUrdu : Option String
  headingEnglish : Option String
  chapterId : String
  bookSlug : String
  volume : String
  status : String
  book : HadithBookRef
  chapter : HadithChapterRef

deriving instance DecidableEq for Hadith

/-- A JSON field typed `T[]` in TypeScript but checked at runtime with
`Array.isArray`: the payload either really is an array or it is some other
value (the code only reacts to the dichotomy, never to the other value). -/
inductive JsArrayField (α : Type) where
  | arr (xs : List α)
  | nonArray

deriving instance DecidableEq for JsArrayField

/-- The `hadiths` pagination envelope of `interface HadithApiResponse`.
`data` carries the runtime array-or-not dichotomy; `links : any[]` is
modelled opaquely as a list of strings; `from` and `to` are renamed `from_`
and `to_` because both are reserved in Lean. -/
structure HadithsEnvelope where
  current_page : Int
  data : JsArrayField Hadith
  first_page_url : String
  from_ : Int
  last_page : Int
  last_page_url : String
  links : List String
  next_page_url : Option String
  path : String
  per_page : Int
  prev_page_url : Option String
  to_ : Int
  total : Int

deriving instance DecidableEq for HadithsEnvelope

/-- `interface BookApiResponse`. -/
structure BookApiResponse where
  status : Int
  message : String
  books : List Book

deriving instance DecidableEq for BookApiResponse

/-- `interface ChapterApiResponse`; `chapters` is `Option` because the code
guards on its JS truthiness (`!data.chapters`), i.e. on a missing/null
field. A present empty array is `some []`. -/
structure ChapterApiResponse where
  status : Int
  message : String
  chapters : Option (List Chapter)

deriving instance DecidableEq for ChapterApiResponse

/-- `interface HadithApiResponse`; `hadiths` is `Option` because the code
guards on its JS truthiness (`data.status === 200 && data.hadiths`). -/
structure HadithApiResponse where
  status : Int
  message : String
  hadiths : Option HadithsEnvelope

deriving instance DecidableEq for HadithApiResponse

/-- How one `fetch` + `response.json()` round trip can settle:
a non-2xx HTTP response (`!response.ok`, which the code turns into a thrown
`HTTP error! status: ...`), some other thrown `Error` (network failure,
JSON parse failure), or a decoded JSON body. -/
inductive FetchOutcome (α : Type) where
  | httpNotOk (status : Int)
  | thrown (msg : String)
  | jsonData (data : α)

deriving instance DecidableEq for FetchOutcome

/-! ## JavaScript `parseInt` (radix argument omitted) -/

/-- Whitespace skipped by JS `parseInt` (the common ASCII white space;
exotic Unicode space classes are not modelled). -/
def isJsSpace (c : Char) : Bool :=
  c = ' ' || c = '\t' || c = '\n' || c = '\r' || c = '\x0b' || c = '\x0c'

/-- Value of a single hexadecimal digit character. -/
def hexDigitVal (c : Char) : Option Nat :=
  if '0' ≤ c ∧ c ≤ '9' then some (c.toNat - '0'.toNat)
  else if 'a' ≤ c ∧ c ≤ 'f' then some (c.toNat - 'a'.toNat + 10)
  else if 'A' ≤ c ∧ c ≤ 'F' then some (c.toNat - 'A'.toNat + 10)
  else none

/-- Value of a digit character in the given radix, if it is one. -/
def digitVal (radix : Nat) (c : Char) : Option Nat :=
  match hexDigitVal c with
  | some v => if v < radix then some v else none
  | none => none

/-- JS `parseInt(s)` with the radix argument omitted: skip leading white
space, read an optional sign, honour a `0x`/`0X` hex prefix (radix 16,
otherwise 10), then take the longest prefix of digits of that radix.
`none` models the `NaN` result (no digits at all). -/
def parseIntJS (s : String) : Option Int :=
  let cs := s.toList.dropWhile isJsSpace
  let signAndRest : Int × List Char :=
    match cs with
    | '-' :: rest => (-1, rest)
    | '+' :: rest => (1, rest)
    | _ => (1, cs)
  let radixAndRest : Nat × List Char :=
    match signAndRest.2 with
    | '0' :: 'x' :: rest => (16, rest)
    | '0' :: 'X' :: rest => (16, rest)
    | _ => (10, signAndRest.2)
  let ds := radixAndRest.2.takeWhile fun c => (digitVal radixAndRest.1 c).isSome
  if ds.isEmpty then none
  else
    some (signAndRest.1 *
      (ds.foldl (fun acc c => acc * radixAndRest.1 + (digitVal radixAndRest.1 c).getD 0) 0 : Nat))

/-- JS `a || b` for strings: the empty string is falsy. Used for
`data.message || 'Failed to fetch ...'`. -/
def jsOrDefault (a b : String) : String :=
  if a = "" then b else a

/-! ## Component state -/

/-- The eleven `useState` hooks of `HadithApp`, in declaration order. -/
structure AppState where
  books : List Book
  selectedBook : Option Book
  chapters : List Chapter
  selectedChapter : Option Chapter
  hadithsData : Option HadithsEnvelope
  currentPage : Int
  loadingBooks : Bool
  loadingChapters : Bool
  loadingHadiths : Bool
  error : Option String
  isSidebarOpen : Bool

deriving instance DecidableEq for AppState

/-- The initial values passed to the `useState` hooks. -/
def initialState : AppState :=
  { books := []
    selectedBook := none
    chapters := []
    selectedChapter := none
    hadithsData := none
    currentPage := 1
    loadingBooks := true
    loadingChapters := false
    loadingHadiths := false
    error := none
    isSidebarOpen := false }

/-! ## Event handlers (App.tsx lines 216-234) -/

/-- `handleBookSelect(book)`: select the book, reset chapter selection,
reset the page to 1, clear the loaded hadith page, close the sidebar. -/
def handleBookSelect (book : Book) (s : AppState) : AppState :=
  { s with
    selectedBook := some book
    selectedChapter := none
    currentPage := 1
    hadithsData := none
    isSidebarOpen := false }

/-- `handleChapterSelect(chapter)`: select the chapter, reset the page to 1,
clear the loaded hadith page. -/
def handleChapterSelect (chapter : Chapter) (s : AppState) : AppState :=
  { s with
    selectedChapter := some chapter
    currentPage := 1
    hadithsData := none }

/-- The guard of `handlePageChange`:
`page > 0 && (!hadithsData || page <= hadithsData.last_page)`. -/
def pageChangeAllowed (page : Int) (s : AppState) : Bool :=
  decide (0 < page) &&
    (match s.hadithsData with
      | none => true
      | some h => decide (page ≤ h.last_page))

/-- `handlePageChange(page)`: update the page when the guard passes,
otherwise change nothing. -/
def handlePageChange (page : Int) (s : AppState) : AppState :=
  if pageChangeAllowed page s then { s with currentPage := page } else s

/-! ## Loader phases -/

/-- `fetchBooks`, synchronous prefix (lines 105-106):
`setLoadingBooks(true); setError(null)`. -/
def fetchBooksStart (s : AppState) : AppState :=
  { s with loadingBooks := true, error := none }

/-- The filter predicate of line 115:
`book => parseInt(book.hadiths_count) > 0` (`NaN > 0` is false). -/
def bookAvailable (book : Book) : Bool :=
  match parseIntJS book.hadiths_count with
  | some n => decide (0 < n)
  | none => false

/-- `fetchBooks`, settlement (lines 109-125): on `!response.ok` or a thrown
error, set the error message; on a decoded body, publish the filtered book
list when `status === 200`, else throw `data.message || 'Failed to fetch
books'` into the catch block; finally clear the loading flag. -/
def fetchBooksSettle (o : FetchOutcome BookApiResponse) (s : AppState) : AppState :=
  let s1 :=
    match o with
    | .httpNotOk st => { s with error := some ("HTTP error! status: " ++ toString st) }
    | .thrown msg => { s with error := some msg }
    | .jsonData d =>
        if d.status = 200 then
          { s with books := d.books.filter bookAvailable }
        else
          { s with error := some (jsOrDefault d.message "Failed to fetch books") }
  { s1 with loadingBooks := false }

/-- `fetchChapters`, synchronous prefix (lines 139-143), run only with a
selected book: `setLoadingChapters(true); setChapters([]);
setSelectedChapter(null); setHadithsData(null); setError(null)`. -/
def fetchChaptersStart (s : AppState) : AppState :=
  { s with
    loadingChapters := true
    chapters := []
    selectedChapter := none
    hadithsData := none
    error := none }

/-- `fetchChapters`, settlement (lines 146-165), with `b` the book captured
by the closure. `data.status === 200 && data.chapters` publishes the list
(a present empty array is truthy); `data.status === 404 || !data.chapters`
sets the book-specific error and an empty list; anything else throws
`data.message || 'Failed to fetch chapters'`; finally the loading flag is
cleared. -/
def fetchChaptersSettle (b : Book) (o : FetchOutcome ChapterApiResponse)
    (s : AppState) : AppState :=
  let s1 :=
    match o with
    | .httpNotOk st => { s with error := some ("HTTP error! status: " ++ toString st) }
    | .thrown msg => { s with error := some msg }
    | .jsonData d =>
        match d.chapters with
        | some cs =>
            if d.status = 200 then
              { s with chapters := cs }
            else if d.status = 404 then
              { s with
                error := some ("No chapters found for " ++ b.bookName ++ ".")
                chapters := [] }
            else
              { s with error := some (jsOrDefault d.message "Failed to fetch chapters") }
        | none =>
            { s with
              error := some ("No chapters found for " ++ b.bookName ++ ".")
              chapters := [] }
  { s1 with loadingChapters := false }

/-- `fetchHadiths`, synchronous prefix (lines 172-178): without both a
selected book and a selected chapter it only clears the loaded page and
returns (no request); otherwise `setLoadingHadiths(true); setError(null)`
and the request goes out. -/
def fetchHadithsStart (s : AppState) : AppState :=
  match s.selectedBook, s.selectedChapter with
  | some _, some _ => { s with loadingHadiths := true, error := none }
  | _, _ => { s with hadithsData := none }

/-- `fetchHadiths`, settlement (lines 181-207), with `b`/`c` the book and
chapter captured by the closure. With `status === 200` and a truthy
`hadiths` envelope: publish the envelope when its `data` is an array, else
publish the envelope with `data: []` and set the advisory error. Otherwise
clear the page data and set `data.message || 'No hadiths found for Chapter
...'`. Thrown errors also clear the page data; finally the loading flag is
cleared. -/
def fetchHadithsSettle (b : Book) (c : Chapter) (o : FetchOutcome HadithApiResponse)
    (s : AppState) : AppState :=
  let s1 :=
    match o with
    | .httpNotOk st =>
        { s with
          error := some ("HTTP error! status: " ++ toString st)
          hadithsData := none }
    | .thrown msg => { s with error := some msg, hadithsData := none }
    | .jsonData d =>
        match d.hadiths with
        | some env =>
            if d.status = 200 then
              match env.data with
              | .arr _ => { s with hadithsData := some env }
              | .nonArray =>
                  { s with
                    hadithsData := some { env with data := .arr [] }
                    error := some "No hadiths found for this chapter or page." }
            else
              { s with
                hadithsData := none
                error := some (jsOrDefault d.message
                  ("No hadiths found for Chapter " ++ c.chapterNumber ++ ".")) }
        | none =>
            { s with
              hadithsData := none
              error := some (jsOrDefault d.message
                ("No hadiths found for Chapter " ++ c.chapterNumber ++ ".")) }
  { s1 with loadingHadiths := false }

/-! ## Reachability (selection transitions plus hadith-page publications) -/

/-- States reachable from the initial state by the three handlers and by
`fetchHadiths` settlements that publish a page envelope (a `status === 200`
body with a truthy `hadiths` field — these are exactly the settlements that
call `setHadithsData` with a non-null envelope). -/
inductive ReachableState : AppState → Prop where
  | init : ReachableState initialState
  | bookSelect (b : Book) (s : AppState) :
      ReachableState s → ReachableState (handleBookSelect b s)
  | chapterSelect (c : Chapter) (s : AppState) :
      ReachableState s → ReachableState (handleChapterSelect c s)
  | pageChange (p : Int) (s : AppState) :
      ReachableState s → ReachableState (handlePageChange p s)
  | hadithsPublish (b : Book) (c : Chapter) (d : HadithApiResponse) (s : AppState) :
      ReachableState s → d.status = 200 → d.hadiths.isSome = true →
      ReachableState (fetchHadithsSettle b c (.jsonData d) s)

/-- As `ReachableState`, but each publishing settlement carries an envelope
whose `last_page` is at least the page number current when it lands. -/
inductive ReachableBounded : AppState → Prop where
  | init : ReachableBounded initialState
  | bookSelect (b : Book) (s : AppState) :
      ReachableBounded s → ReachableBounded (handleBookSelect b s)
  | chapterSelect (c : Chapter) (s : AppState) :
      ReachableBounded s → ReachableBounded (handleChapterSelect c s)
  | pageChange (p : Int) (s : AppState) :
      ReachableBounded s → ReachableBounded (handlePageChange p s)
  | hadithsPublish (b : Book) (c : Chapter) (d : HadithApiResponse)
      (env : HadithsEnvelope) (s : AppState) :
      ReachableBounded s → d.status = 200 → d.hadiths = some env →
      s.currentPage ≤ env.last_page →
      ReachableBounded (fetchHadithsSettle b c (.jsonData d) s)

/-- The page-number invariant of spec section 3: the page is positive and,
when a page envelope is loaded, no larger than its `last_page`. -/
def pageInvariant (s : AppState) : Prop :=
  1 ≤ s.currentPage ∧
    ∀ env, s.hadithsData = some env → s.currentPage ≤ env.last_page

/-! ## Concrete sample values for witnesses and counterexamples -/

/-- A sample catalog book with a positive hadith count. -/
def bookBukhari : Book :=
  { id := 1
    bookName := "Sahih Bukhari"
    writerName := "Imam Bukhari"
    writerDeath := some "256 AH"
    bookSlug := "sahih-bukhari"
    hadiths_count := "7563"
    chapters_count := "99" }

/-- A sample catalog book whose hadith count parses to zero. -/
def bookZeroCount : Book :=
  { id := 2
    bookName := "Musnad Ahmad"
    writerName := "Imam Ahmad"
    writerDeath := none
    bookSlug := "musnad-ahmad"
    hadiths_count := "0"
    chapters_count := "0" }

/-- A sample catalog book whose hadith count does not parse (`NaN`). -/
def bookBlankCount : Book :=
  { id := 3
    bookName := "Sunan Darimi"
    writerName := "Imam Darimi"
    writerDeath := none
    bookSlug := "al-darimi"
    hadiths_count := ""
    chapters_count := "" }

/-- A sample chapter of the sample book. -/
def chapterOne : Chapter :=
  { id := 1
    chapterNumber := "1"
    chapterEnglish := "Revelation"
    chapterUrdu := ""
    chapterArabic := ""
    bookSlug := "sahih-bukhari" }

/-- A pagination envelope at `current_page = page` with the given
`last_page` and `data` payload. -/
def envelopePage (page lastPage : Int) (d : JsArrayField Hadith) : HadithsEnvelope :=
  { current_page := page
    data := d
    first_page_url := ""
    from_ := 1
    last_page := lastPage
    last_page_url := ""
    links := []
    next_page_url := none
    path := ""
    per_page := 25
    prev_page_url := none
    to_ := 25
    total := 75 }

/-- A successful catalog response carrying all three sample books. -/
def respBooks : BookApiResponse :=
  { status := 200, message := "", books := [bookBukhari, bookZeroCount, bookBlankCount] }

/-- A chapter response: status 200 with a present-but-empty chapter list. -/
def respChaptersEmpty : ChapterApiResponse :=
  { status := 200, message := "", chapters := some [] }

/-- A chapter response with API status 404. -/
def respChapters404 : ChapterApiResponse :=
  { status := 404, message := "", chapters := some [] }

/-- A hadith response publishing a 3-page envelope (empty data array). -/
def respPage3 : HadithApiResponse :=
  { status := 200, message := "", hadiths := some (envelopePage 7 3 (.arr [])) }

/-- A hadith response whose envelope's `data` field is not an array. -/
def respNonArray : HadithApiResponse :=
  { status := 200, message := "", hadiths := some (envelopePage 1 3 .nonArray) }

/-- The state right after `fetchChapters` starts for the sample book. -/
def sChapterStart : AppState :=
  fetchChaptersStart (handleBookSelect bookBukhari initialState)

/-- A state with a loaded 3-page envelope at page 1. -/
def sampleLoadedState : AppState :=
  { initialState with
    selectedBook := some bookBukhari
    selectedChapter := some chapterOne
    hadithsData := some (envelopePage 1 3 (.arr [])) }

/-- A state with both selections made and a stale error message pending. -/
def sStaleError : AppState :=
  { initialState with
    selectedBook := some bookBukhari
    selectedChapter := some chapterOne
    error := some "stale failure" }

/-- The state reached by selecting the sample book and chapter, jumping to
page 7 while no envelope is loaded, and then receiving a 3-page envelope. -/
def sBadPage : AppState :=
  fetchHadithsSettle bookBukhari chapterOne (.jsonData respPage3)
    (handlePageChange 7 (handleChapterSelect chapterOne
      (handleBookSelect bookBukhari initialState)))

/-! ## Claim theorems -/

/-- C2: `handleBookSelect b` sets the selected book to `b`, clears the
chapter selection, resets the page to 1, clears the loaded hadith page,
and closes the mobile sidebar, from every prior state. -/
theorem handleBookSelect_spec (b : Book) (s : AppState) :
    (handleBookSelect b s).selectedBook = some b ∧
    (handleBookSelect b s).selectedChapter = none ∧
    (handleBookSelect b s).currentPage = 1 ∧
    (handleBookSelect b s).hadithsData = none ∧
    (handleBookSelect b s).isSidebarOpen = false :=
  ⟨rfl, rfl, rfl, rfl, rfl⟩

/-- C4: `handleChapterSelect c` sets the selected chapter to `c`, resets
the page to 1, and clears the loaded hadith page, from every prior state. -/
theorem handleChapterSelect_spec (c : Chapter) (s : AppState) :
    (handleChapterSelect c s).selectedChapter = some c ∧
    (handleChapterSelect c s).currentPage = 1 ∧
    (handleChapterSelect c s).hadithsData = none :=
  ⟨rfl, rfl, rfl⟩

/-- C9: `handleChapterSelect` leaves the selected book, the book list, the
chapter list and the sidebar-open flag unchanged; in particular it does not
close the mobile sidebar the way `handleBookSelect` does. -/
theorem handleChapterSelect_frame (c : Chapter) (s : AppState) :
    (handleChapterSelect c s).selectedBook = s.selectedBook ∧
    (handleChapterSelect c s).books = s.books ∧
    (handleChapterSelect c s).chapters = s.chapters ∧
    (handleChapterSelect c s).isSidebarOpen = s.isSidebarOpen :=
  ⟨rfl, rfl, rfl, rfl⟩

/-- The Boolean guard of `handlePageChange` holds exactly when the page is
at least 1 and either no envelope is loaded or the page is within its
`last_page`. -/
lemma pageChangeAllowed_iff (p : Int) (s : AppState) :
    pageChangeAllowed p s = true ↔
      (1 ≤ p ∧ (s.hadithsData = none ∨
        ∃ h, s.hadithsData = some h ∧ p ≤ h.last_page)) := by
  unfold pageChangeAllowed
  rw [Bool.and_eq_true, decide_eq_true_eq]
  cases hd : s.hadithsData with
  | none => simp; omega
  | some h => simp; omega

/-- C3: `handlePageChange p` sets the page to `p` exactly when `p ≥ 1` and
either no page envelope is loaded or `p` is at most the loaded envelope's
`last_page`; otherwise it changes nothing (and in particular sets no
error). -/
theorem handlePageChange_spec (p : Int) (s : AppState) :
    ((1 ≤ p ∧ (s.hadithsData = none ∨
        ∃ h, s.hadithsData = some h ∧ p ≤ h.last_page)) →
      handlePageChange p s = { s with currentPage := p }) ∧
    (¬ (1 ≤ p ∧ (s.hadithsData = none ∨
        ∃ h, s.hadithsData = some h ∧ p ≤ h.last_page)) →
      handlePageChange p s = s) := by
  constructor
  · intro hcond
    unfold handlePageChange
    rw [if_pos ((pageChangeAllowed_iff p s).2 hcond)]
  · intro hcond
    unfold handlePageChange
    rw [if_neg fun htrue => hcond ((pageChangeAllowed_iff p s).1 htrue)]

/-- Witness for C3: with a loaded 3-page envelope, page 2 is accepted and
page 5 is rejected. -/
theorem handlePageChange_spec_witness :
    handlePageChange 2 sampleLoadedState = { sampleLoadedState with currentPage := 2 } ∧
    handlePageChange 5 sampleLoadedState = sampleLoadedState :=
  ⟨(handlePageChange_spec 2 sampleLoadedState).1
      ⟨by decide, Or.inr ⟨envelopePage 1 3 (.arr []), rfl, by decide⟩⟩,
   (handlePageChange_spec 5 sampleLoadedState).2
      (by
        rintro ⟨-, hnone | ⟨h, hh, hle⟩⟩
        · exact absurd hnone (by decide)
        · rw [show sampleLoadedState.hadithsData = some (envelopePage 1 3 (.arr []))
            from rfl] at hh
          cases hh
          exact absurd hle (by decide))⟩

/-- C10: each loader clears the error message in its synchronous start
phase — unconditionally for the book and chapter loaders, and for the
hadith loader whenever a request actually goes out (both selections
present). -/
theorem loaders_clear_error_on_start (s : AppState) :
    (fetchBooksStart s).error = none ∧
    (fetchChaptersStart s).error = none ∧
    (s.selectedBook.isSome = true → s.selectedChapter.isSome = true →
      (fetchHadithsStart s).error = none) := by
  refine ⟨rfl, rfl, ?_⟩
  intro hb hc
  unfold fetchHadithsStart
  rcases hsb : s.selectedBook with _ | b
  · rw [hsb] at hb; simp at hb
  · rcases hsc : s.selectedChapter with _ | c
    · rw [hsc] at hc; simp at hc
    · simp only [hsb, hsc]

/-- Witness for C10: a pending stale error is cleared when the hadith
loader starts with both selections present. -/
theorem loaders_clear_error_on_start_witness :
    (fetchHadithsStart sStaleError).error = none :=
  (loaders_clear_error_on_start sStaleError).2.2 rfl rfl

/-- C1: in a successful catalog response (`status === 200`), a book of the
response appears in the published book list iff its `hadiths_count` parses
to a positive integer. -/
theorem fetchBooks_published_iff_count_pos (d : BookApiResponse) (s : AppState)
    (b : Book) (h200 : d.status = 200) (hmem : b ∈ d.books) :
    b ∈ (fetchBooksSettle (.jsonData d) s).books ↔
      ∃ n, parseIntJS b.hadiths_count = some n ∧ 0 < n := by
  simp only [fetchBooksSettle, h200, if_true, reduceIte]
  simp only [List.mem_filter, hmem, true_and, bookAvailable]
  cases hp : parseIntJS b.hadiths_count with
  | none => simp [hp]
  | some n => simp [hp]

/-- Witness for C1: the sample book with count "7563" is published, and its
count indeed parses positively. -/
theorem fetchBooks_published_iff_count_pos_witness :
    bookBukhari ∈ (fetchBooksSettle (.jsonData respBooks) initialState).books ↔
      ∃ n, parseIntJS bookBukhari.hadiths_count = some n ∧ 0 < n :=
  fetchBooks_published_iff_count_pos respBooks initialState bookBukhari rfl
    (by decide)

/-- C8: a book whose `hadiths_count` does not parse (`parseInt` yields
`NaN`) is excluded from the published catalog, and the availability filter
treats it exactly like a count of zero. -/
theorem fetchBooks_nan_count_excluded (d : BookApiResponse) (s : AppState)
    (b : Book) (h200 : d.status = 200)
    (hnan : parseIntJS b.hadiths_count = none) :
    b ∉ (fetchBooksSettle (.jsonData d) s).books ∧
      bookAvailable b = bookAvailable { b with hadiths_count := "0" } := by
  have h0 : parseIntJS "0" = some 0 := by decide
  constructor
  · simp [fetchBooksSettle, h200, List.mem_filter, bookAvailable, hnan]
  · simp [bookAvailable, hnan, h0]

/-- Witness for C8: the sample book with an empty count string is kept out
of the catalog built from the sample response. -/
theorem fetchBooks_nan_count_excluded_witness :
    bookBlankCount ∉ (fetchBooksSettle (.jsonData respBooks) initialState).books ∧
      bookAvailable bookBlankCount =
        bookAvailable { bookBlankCount with hadiths_count := "0" } :=
  fetchBooks_nan_count_excluded respBooks initialState bookBlankCount rfl
    (by decide)

/-- C5 counterexample: a status-200 chapter response with a present but
empty chapter list publishes `[]` without setting any error (an empty JS
array is truthy, so the success branch runs), refuting the claim that an
empty chapter list yields an error mentioning the book's name. -/
theorem fetchChapters_empty_list_counterexample :
    (fetchChaptersSettle bookBukhari (.jsonData respChaptersEmpty) sChapterStart).chapters
        = [] ∧
      (fetchChaptersSettle bookBukhari (.jsonData respChaptersEmpty) sChapterStart).error
        = none := by
  decide

/-- C5 (amended): when the chapter request settles with API status 404 or
with a missing chapter list, the published chapter list is `[]`, the error
is the book-specific "No chapters found" message, and the loading flag is
false. -/
theorem fetchChapters_notFound_spec (b : Book) (d : ChapterApiResponse)
    (s : AppState) (h : d.status = 404 ∨ d.chapters = none) :
    (fetchChaptersSettle b (.jsonData d) s).chapters = [] ∧
      (fetchChaptersSettle b (.jsonData d) s).error =
        some ("No chapters found for " ++ b.bookName ++ ".") ∧
      (fetchChaptersSettle b (.jsonData d) s).loadingChapters = false := by
  rcases hch : d.chapters with _ | cs
  · simp [fetchChaptersSettle, hch]
  · rcases h with h404 | hnone
    · simp [fetchChaptersSettle, hch, h404]
    · rw [hch] at hnone
      cases hnone

/-- Witness for C5 (amended): a 404 chapter response for the sample book
yields an empty list and the book-specific error. -/
theorem fetchChapters_notFound_spec_witness :
    (fetchChaptersSettle bookBukhari (.jsonData respChapters404) sChapterStart).chapters
        = [] ∧
      (fetchChaptersSettle bookBukhari (.jsonData respChapters404) sChapterStart).error
        = some ("No chapters found for " ++ bookBukhari.bookName ++ ".") ∧
      (fetchChaptersSettle bookBukhari (.jsonData respChapters404) sChapterStart).loadingChapters
        = false :=
  fetchChapters_notFound_spec bookBukhari respChapters404 sChapterStart (Or.inl rfl)

/-- C6: a status-200 hadith response with a present envelope whose `data`
is not an array publishes the envelope with `data` replaced by the empty
sequence, sets the advisory "no hadiths found" error, and clears the
loading flag. -/
theorem fetchHadiths_nonArray_spec (b : Book) (c : Chapter)
    (d : HadithApiResponse) (env : HadithsEnvelope) (s : AppState)
    (h200 : d.status = 200) (hsome : d.hadiths = some env)
    (hdata : env.data = .nonArray) :
    fetchHadithsSettle b c (.jsonData d) s =
      { s with
        hadithsData := some { env with data := .arr [] }
        error := some "No hadiths found for this chapter or page."
        loadingHadiths := false } := by
  simp [fetchHadithsSettle, hsome, h200, hdata]

/-- Witness for C6: a concrete non-array payload is published as an empty
page with the advisory error. -/
theorem fetchHadiths_nonArray_spec_witness :
    fetchHadithsSettle bookBukhari chapterOne (.jsonData respNonArray) sStaleError =
      { sStaleError with
        hadithsData := some { envelopePage 1 3 .nonArray with data := .arr [] }
        error := some "No hadiths found for this chapter or page."
        loadingHadiths := false } :=
  fetchHadiths_nonArray_spec bookBukhari chapterOne respNonArray
    (envelopePage 1 3 .nonArray) sStaleError rfl rfl rfl

/-- C7 counterexample: jumping to page 7 while no envelope is loaded is
accepted, and a subsequent settlement publishing a 3-page envelope leaves
the page at 7 > 3 — a reachable state violating the claimed bound. -/
theorem reachable_page_bound_counterexample :
    ReachableState sBadPage ∧
      sBadPage.currentPage = 7 ∧
      sBadPage.hadithsData = some (envelopePage 7 3 (.arr [])) ∧
      ¬ pageInvariant sBadPage := by
  refine ⟨?_, by decide, by decide, ?_⟩
  · unfold sBadPage
    exact ReachableState.hadithsPublish bookBukhari chapterOne respPage3 _
      (ReachableState.pageChange 7 _
        (ReachableState.chapterSelect chapterOne _
          (ReachableState.bookSelect bookBukhari _ ReachableState.init)))
      rfl rfl
  · intro hinv
    exact absurd (hinv.2 (envelopePage 7 3 (.arr [])) (by decide)) (by decide)

/-- C7 (amended): when every publishing settlement carries an envelope
whose `last_page` is at least the page current at settlement time, every
reachable state has a positive page number that is at most the loaded
envelope's `last_page` whenever an envelope is loaded. -/
theorem reachable_page_invariant (s : AppState) (h : ReachableBounded s) :
    pageInvariant s := by
  induction h with
  | init =>
      refine ⟨le_refl 1, ?_⟩
      intro env henv
      simp [initialState] at henv
  | bookSelect b s hs ih =>
      refine ⟨le_refl 1, ?_⟩
      intro env henv
      simp [handleBookSelect] at henv
  | chapterSelect c s hs ih =>
      refine ⟨le_refl 1, ?_⟩
      intro env henv
      simp [handleChapterSelect] at henv
  | pageChange p s hs ih =>
      unfold handlePageChange
      split
      next hc =>
        rw [pageChangeAllowed_iff] at hc
        obtain ⟨hp, hor⟩ := hc
        refine ⟨hp, ?_⟩
        intro env henv
        rcases hor with hnone | ⟨h', hh', hle⟩
        · rw [show ({ s with currentPage := p } : AppState).hadithsData
              = s.hadithsData from rfl, hnone] at henv
          cases henv
        · rw [show ({ s with currentPage := p } : AppState).hadithsData
              = s.hadithsData from rfl, hh'] at henv
          injection henv with he
          subst he
          exact hle
      next hnc => exact ih
  | hadithsPublish b c d env s hs h200 hsome hbound ih =>
      simp only [fetchHadithsSettle, hsome, h200, if_true, reduceIte]
      cases hdata : env.data with
      | arr xs =>
          simp only [hdata]
          refine ⟨ih.1, ?_⟩
          intro env2 henv2
          injection henv2 with he
          subst he
          exact hbound
      | nonArray =>
          simp only [hdata]
          refine ⟨ih.1, ?_⟩
          intro env2 henv2
          injection henv2 with he
          subst he
          exact hbound

/-- Witness for C7 (amended): the invariant holds at the initial state. -/
theorem reachable_page_invariant_witness :
    1 ≤ initialState.currentPage :=
  (reachable_page_invariant initialState ReachableBounded.init).1
